import Mathlib

/-!
# Verification of the kf-central-db-integration-demo request handler

A shallow embedding in Lean 4 of `handleRequest` from `main.go` of the
`kf-central-db-integration-demo` repository, together with theorems about
the behaviours it guarantees.

The program is a single HTTP handler.  We embed:

* JSON values and a model of Go's `json.Unmarshal(body, &m)` for
  `m : map[string]interface{}` (`unmarshalMap`), including the edge case
  that the JSON literal `null` unmarshals successfully while leaving
  the target map `nil`;
* Go map assignment / lookup on `map[string]interface{}` as association
  lists with overwrite semantics (`mapSet` / `mapGet`), where writing to
  a `nil` map is a runtime panic (modelled by the `Outcome.panic`
  constructor of the handler's result);
* the handler itself (`handleRequest`), phase by phase, over an abstract
  incoming request (method, read body, parsed form, cookie-lookup result,
  the two header values) and an abstract upstream result.
-/

set_option linter.unusedVariables false

namespace KfDemo

/-- A JSON value as decoded by `encoding/json` into `interface{}`:
`nil`, `bool`, `float64`, `string`, `[]interface{}`, or
`map[string]interface{}` (kept here as an association list in which keys
are unique, later entries of a JSON text overwriting earlier ones).
A number carries its source lexeme; the `float64` it denotes and Go's
`%v` formatting of that float are abstracted by the lexeme. -/
inductive Json where
  | null
  | bool (b : Bool)
  | num (lexeme : String)
  | str (s : String)
  | arr (elems : List Json)
  | obj (fields : List (String × Json))
  deriving Repr

/-- A `map[string]interface{}` (a non-`nil` one). -/
abbrev ParamsMap := List (String × Json)

/-- Go map assignment `m[k] = v`: overwrite the entry for `k` if present,
otherwise add one. -/
def mapSet : ParamsMap → String → Json → ParamsMap
  | [], k, v => [(k, v)]
  | (k', v') :: rest, k, v =>
    if k' = k then (k, v) :: rest else (k', v') :: mapSet rest k v

/-- Go map lookup `m[k]`. -/
def mapGet : ParamsMap → String → Option Json
  | [], _ => none
  | (k', v') :: rest, k => if k' = k then some v' else mapGet rest k

/-- The keys of a map. -/
def mapKeys (m : ParamsMap) : List String := m.map Prod.fst

/-! ## A model of `json.Unmarshal` into `map[string]interface{}`

`encoding/json` accepts the standard JSON grammar with optional
surrounding whitespace (space, tab, newline, carriage return) and
rejects trailing garbage.  Decoding into `map[string]interface{}`
succeeds exactly when the top-level value is an object or the literal
`null`; `null` leaves the target map untouched (so a `nil` map stays
`nil`), any other non-object top-level value is a type error. -/

/-- JSON insignificant whitespace. -/
def isJsonWs (c : Char) : Bool :=
  c = ' ' || c = '\t' || c = '\n' || c = '\r'

/-- Skip insignificant whitespace. -/
def skipWs : List Char → List Char
  | [] => []
  | c :: cs => if isJsonWs c then skipWs cs else c :: cs

/-- Hex digit value, if any. -/
def hexVal (c : Char) : Option Nat :=
  if '0' ≤ c ∧ c ≤ '9' then some (c.toNat - '0'.toNat)
  else if 'a' ≤ c ∧ c ≤ 'f' then some (c.toNat - 'a'.toNat + 10)
  else if 'A' ≤ c ∧ c ≤ 'F' then some (c.toNat - 'A'.toNat + 10)
  else none

/-- Decode a `\uXXXX` code unit to a character (an invalid scalar value,
e.g. an unpaired surrogate, becomes U+FFFD as in Go; surrogate-pair
combination is not modelled). -/
def charOfCode (n : Nat) : Char :=
  if h : n < 0xd800 ∨ (0xdfff < n ∧ n < 0x110000) then
    Char.ofNatAux n h
  else
    '�'

/-- Parse the body of a JSON string after the opening quote, returning
its contents and the rest of the input after the closing quote. -/
def parseStringBody : List Char → Option (List Char × List Char)
  | [] => none
  | '"' :: cs => some ([], cs)
  | '\\' :: cs =>
    match cs with
    | 'u' :: h1 :: h2 :: h3 :: h4 :: cs' => do
      let d1 ← hexVal h1
      let d2 ← hexVal h2
      let d3 ← hexVal h3
      let d4 ← hexVal h4
      let (s, rest) ← parseStringBody cs'
      pure (charOfCode (((d1 * 16 + d2) * 16 + d3) * 16 + d4) :: s, rest)
    | e :: cs' => do
      let c ← match e with
        | '"' => some '"'
        | '\\' => some '\\'
        | '/' => some '/'
        | 'b' => some '\x08'
        | 'f' => some '\x0c'
        | 'n' => some '\n'
        | 'r' => some '\r'
        | 't' => some '\t'
        | _ => none
      let (s, rest) ← parseStringBody cs'
      pure (c :: s, rest)
    | [] => none
  | c :: cs => do
    if c.toNat < 0x20 then none
    else
      let (s, rest) ← parseStringBody cs
      pure (c :: s, rest)

/-- Take the longest prefix of decimal digits. -/
def takeDigits : List Char → List Char × List Char
  | [] => ([], [])
  | c :: cs =>
    if '0' ≤ c ∧ c ≤ '9' then
      let (ds, rest) := takeDigits cs
      (c :: ds, rest)
    else ([], c :: cs)

/-- Parse a JSON number per the RFC 8259 grammar
`-?(0|[1-9][0-9]*)(\.[0-9]+)?([eE][+-]?[0-9]+)?`, returning its lexeme. -/
def parseNumber (cs : List Char) : Option (List Char × List Char) := do
  let (sign, cs1) := match cs with
    | '-' :: rest => (['-'], rest)
    | _ => (([] : List Char), cs)
  let (intPart, cs2) ←
    match cs1 with
    | '0' :: rest => some (['0'], rest)
    | c :: rest =>
      if '1' ≤ c ∧ c ≤ '9' then
        let (ds, rest') := takeDigits rest
        some (c :: ds, rest')
      else none
    | [] => none
  let (fracPart, cs3) ←
    match cs2 with
    | '.' :: rest =>
      match takeDigits rest with
      | ([], _) => none
      | (ds, rest') => some ('.' :: ds, rest')
    | _ => some (([] : List Char), cs2)
  let (expPart, cs4) ←
    match cs3 with
    | e :: rest =>
      if e = 'e' ∨ e = 'E' then
        let (sgn, rest1) := match rest with
          | '+' :: r => (['+'], r)
          | '-' :: r => (['-'], r)
          | _ => (([] : List Char), rest)
        match takeDigits rest1 with
        | ([], _) => none
        | (ds, rest2) => some (e :: (sgn ++ ds), rest2)
      else some (([] : List Char), cs3)
    | [] => some (([] : List Char), cs3)
  pure (sign ++ intPart ++ fracPart ++ expPart, cs4)

mutual

/-- Parse one JSON value (after skipping leading whitespace), with fuel
bounding the nesting depth. -/
def parseValue : Nat → List Char → Option (Json × List Char)
  | 0, _ => none
  | fuel + 1, cs =>
    match skipWs cs with
    | [] => none
    | c :: cs' =>
      match c with
      | '\x7b' =>
        match skipWs cs' with
        | '\x7d' :: rest => some (.obj [], rest)
        | cs'' => parseObjectFields fuel cs'' []
      | '[' =>
        match skipWs cs' with
        | ']' :: rest => some (.arr [], rest)
        | cs'' => parseArrayElems fuel cs'' []
      | '"' => do
        let (s, rest) ← parseStringBody cs'
        pure (.str (String.mk s), rest)
      | 't' =>
        match cs' with
        | 'r' :: 'u' :: 'e' :: rest => some (.bool true, rest)
        | _ => none
      | 'f' =>
        match cs' with
        | 'a' :: 'l' :: 's' :: 'e' :: rest => some (.bool false, rest)
        | _ => none
      | 'n' =>
        match cs' with
        | 'u' :: 'l' :: 'l' :: rest => some (.null, rest)
        | _ => none
      | _ => do
        let (lex, rest) ← parseNumber (c :: cs')
        pure (.num (String.mk lex), rest)

/-- Parse the fields of an object after `{` (leading whitespace already
skipped), accumulating into `acc`; duplicate keys overwrite (as in Go). -/
def parseObjectFields : Nat → List Char → List (String × Json) →
    Option (Json × List Char)
  | 0, _, _ => none
  | _ + 1, [], _ => none
  | fuel + 1, c :: cs, acc => do
      let (key, rest1) ←
        match c with
        | '"' => parseStringBody cs
        | _ => none
      match skipWs rest1 with
      | ':' :: rest2 => do
        let (v, rest3) ← parseValue fuel rest2
        let acc' := mapSet acc (String.mk key) v
        match skipWs rest3 with
        | ',' :: rest4 => parseObjectFields fuel (skipWs rest4) acc'
        | '\x7d' :: rest4 => some (.obj acc', rest4)
        | _ => none
      | _ => none

/-- Parse the elements of an array after `[` (leading whitespace already
skipped), accumulating into `acc`. -/
def parseArrayElems : Nat → List Char → List Json →
    Option (Json × List Char)
  | 0, _, _ => none
  | _ + 1, [], _ => none
  | fuel + 1, c :: cs, acc => do
      let (v, rest1) ← parseValue fuel (c :: cs)
      match skipWs rest1 with
      | ',' :: rest2 => parseArrayElems fuel rest2 (acc ++ [v])
      | ']' :: rest2 => some (.arr (acc ++ [v]), rest2)
      | _ => none

end

/-- Parse a complete JSON text: one value, with optional surrounding
whitespace and nothing after it. -/
def parseJson (s : String) : Option Json := do
  let (v, rest) ← parseValue (s.length + 1) s.data
  match skipWs rest with
  | [] => pure v
  | _ => none

/-- Result of `json.Unmarshal(body, &m)` for `var m map[string]interface{}`. -/
inductive UnmarshalResult where
  | err
  | okNull
  | okMap (fields : List (String × Json))
  deriving Repr

/-- Go's `json.Unmarshal(body, &m)` with `m : map[string]interface{}`:
an error unless the body is a valid JSON text whose top-level value is
an object (decoded into the map) or the literal `null` (which leaves the
map untouched — in `handleRequest` it therefore stays `nil`). -/
def unmarshalMap (s : String) : UnmarshalResult :=
  match parseJson s with
  | none => .err
  | some .null => .okNull
  | some (.obj fields) => .okMap fields
  | some _ => .err

/-! ## The incoming request and the upstream result -/

/-- Result of `r.Cookie("oauth2_proxy_kubeflow")`: the cookie's value,
`http.ErrNoCookie`, or any other error (`main.go` has a branch for the
latter even though `net/http`'s `Request.Cookie` only ever returns
`ErrNoCookie`). -/
inductive CookieResult where
  | err
  | noCookie
  | found (value : String)
  deriving Repr, DecidableEq

/-- The data of an incoming HTTP request that `handleRequest` consumes:
the method, the result of `ioutil.ReadAll(r.Body)` (`Except` error),
the parsed form `r.Form` (a multimap, keys unique as in `url.Values`),
the `oauth2_proxy_kubeflow` cookie lookup, and the two header values as
returned by `r.Header.Get` (`""` when absent). -/
structure Request where
  method : String
  bodyRead : Except Unit String
  form : List (String × List String)
  cookieResult : CookieResult
  userIdHeader : String
  tokenHeader : String

/-- The outcome of `http.Get(modelRegistryURL)` followed by
`ioutil.ReadAll` of its body: a transport error, or a reply carrying a
status code and the body-read result. -/
inductive Upstream where
  | netError
  | reply (status : Nat) (bodyRead : Except Unit String)

/-- The body the handler writes: either the plain-text message of
`http.Error` (which appends a newline) or the rendered HTML page,
represented by its two lists of `<li>` items (request parameters, then
model-registry entries). -/
inductive RespBody where
  | text (s : String)
  | page (paramItems registryItems : List String)

/-- An HTTP response as produced by the handler: status code, response
headers, body. -/
structure Response where
  status : Nat
  headers : List (String × String)
  body : RespBody

/-- What running the handler on one request does: either write one HTTP
response, or panic (reachable in `main.go` by assigning into a `nil`
map). -/
inductive Outcome where
  | response (resp : Response)
  | panic

/-- The two headers `handleRequest` sets unconditionally before any
branch (lines 32–33 of `main.go`). -/
def baseHeaders : List (String × String) :=
  [("X-Frame-Options", "ALLOWALL"),
   ("Content-Security-Policy", "frame-ancestors *;")]

/-- Go's `http.Error(w, msg, code)`: plain-text message plus newline;
previously set headers are kept, a text content type and `nosniff` are
added. -/
def httpError (msg : String) (code : Nat) : Response :=
  { status := code,
    headers := baseHeaders ++
      [("Content-Type", "text/plain; charset=utf-8"),
       ("X-Content-Type-Options", "nosniff")],
    body := .text (msg ++ "\n") }

/-! ## Parameter extraction -/

/-- The GET loop body (lines 63–69): a form key with exactly one value
maps to that value (`values[0]`), any other key to the whole value
list. -/
def formValue (values : List String) : Json :=
  if values.length = 1 then .str (values.headD "") else .arr (values.map .str)

/-- The GET branch (lines 60–70): fold the parsed form into a fresh
params map. -/
def formParams (form : List (String × List String)) : ParamsMap :=
  form.foldl (fun acc kv => mapSet acc kv.1 (formValue kv.2)) []

/-- Lines 40–70 of `main.go`: build `params` from the body (POST) or
the form (GET).  `Except.error` is an early error response; `Except.ok
none` is the `nil` map (a POST whose body is the JSON literal `null`
leaves the declared-but-unassigned `params` untouched); `Except.ok
(some m)` is a non-`nil` map.  Only called for methods GET and POST
(anything else was rejected with 405 before this point). -/
def bodyPhase (r : Request) : Except Response (Option ParamsMap) :=
  if r.method = "POST" then
    match r.bodyRead with
    | .error _ => .error (httpError "Unable to read request body" 400)
    | .ok body =>
      if body.length > 0 then
        match unmarshalMap body with
        | .err => .error (httpError "Invalid JSON in request body" 400)
        | .okNull => .ok none
        | .okMap fields => .ok (some fields)
      else
        .ok (some [])
  else
    .ok (some (formParams r.form))

/-- Lines 72–85, the successful cases: insert the cookie's value, or
`nil` when the cookie is absent, under `"oauth2_proxy_kubeflow"` (the
`.err` case answers 400 before any insertion and is handled by the
caller; it is mapped to the identity here). -/
def cookieParams (c : CookieResult) (m : ParamsMap) : ParamsMap :=
  match c with
  | .err => m
  | .noCookie => mapSet m "oauth2_proxy_kubeflow" .null
  | .found v => mapSet m "oauth2_proxy_kubeflow" (.str v)

/-- Lines 87–101: insert each of the two header values under its key
when non-empty; an empty value is only logged. -/
def headerParams (r : Request) (m : ParamsMap) : ParamsMap :=
  let m1 := if r.userIdHeader = "" then m
            else mapSet m "kubeflow-userid" (.str r.userIdHeader)
  if r.tokenHeader = "" then m1
  else mapSet m1 "x-forwarded-access-token" (.str r.tokenHeader)

/-! ## Rendering

The template (lines 136–166) is a fixed literal, so `template.Parse`
never fails and the error branch at lines 168–173 is dead; execution
failure (line 181) can only come from a write error on the client
connection, which is outside this model.  `text/template` visits the
keys of a ranged-over map in sorted key order, emitting one `<li>` per
key; `html/template` escapes the interpolated key and the
`printf "%v"`-formatted value in the HTML text context. -/

/-- Lexicographic order on character lists (Go's `sort.Strings` byte
order; for the ASCII keys at hand, code-point order and byte order
agree). -/
def charListLe : List Char → List Char → Bool
  | [], _ => true
  | _ :: _, [] => false
  | a :: as, b :: bs =>
    if a.toNat < b.toNat then true
    else if b.toNat < a.toNat then false
    else charListLe as bs

/-- Lexicographic string order. -/
def strLe (a b : String) : Bool := charListLe a.data b.data

/-- Insert into a list sorted by a string key. -/
def insortBy {α : Type} (key : α → String) (x : α) : List α → List α
  | [] => [x]
  | y :: ys => if strLe (key x) (key y) then x :: y :: ys else y :: insortBy key x ys

/-- Sort by a string key (Go map iteration in templates, and `fmt`'s
map printing, visit keys in sorted order). -/
def sortByKey {α : Type} (key : α → String) (xs : List α) : List α :=
  xs.foldr (insortBy key) []

/-- Escape one character as `html/template` does in HTML text context. -/
def escChar (c : Char) : List Char :=
  if c = '&' then "&amp;".data
  else if c = '<' then "&lt;".data
  else if c = '>' then "&gt;".data
  else if c = '"' then "&#34;".data
  else if c = '\'' then "&#39;".data
  else [c]

/-- Escaping of a whole string as `html/template` does in HTML text
context. -/
def htmlEscape (s : String) : String :=
  String.mk (s.data.foldr (fun c acc => escChar c ++ acc) [])

mutual

/-- Go's `fmt` `%v` formatting of a JSON-decoded `interface{}` value:
`nil` prints `<nil>`, booleans `true`/`false`, strings verbatim,
slices `[e1 e2 …]`, maps `map[k1:v1 k2:v2 …]` with keys sorted; a
`float64` prints via its shortest decimal representation, abstracted
here by the number's source lexeme. -/
def goFmt : Json → String
  | .null => "<nil>"
  | .bool b => if b then "true" else "false"
  | .num lexeme => lexeme
  | .str s => s
  | .arr elems => "[" ++ String.intercalate " " (goFmtList elems) ++ "]"
  | .obj fields =>
    "map[" ++ String.intercalate " "
      ((sortByKey Prod.fst (goFmtFields fields)).map
        (fun kv => kv.1 ++ ":" ++ kv.2)) ++ "]"

/-- Formatting of each element of a slice with `%v`. -/
def goFmtList : List Json → List String
  | [] => []
  | v :: vs => goFmt v :: goFmtList vs

/-- Formatting of each value of a map with `%v`, keeping the keys. -/
def goFmtFields : List (String × Json) → List (String × String)
  | [] => []
  | (k, v) :: fs => (k, goFmt v) :: goFmtFields fs

end

/-- One `<li>` item of the template (lines 154 and 161):
`<li><strong>{{$key}}:</strong> {{printf "%v" $value}}</li>` with both
interpolations HTML-escaped. -/
def liItem (k : String) (v : Json) : String :=
  "<li><strong>" ++ htmlEscape k ++ ":</strong> " ++ htmlEscape (goFmt v)
    ++ "</li>"

/-- The `<li>` items a `{{range $key, $value := …}}` block emits for a
map: one per key, in sorted key order. -/
def liItems (m : ParamsMap) : List String :=
  (sortByKey Prod.fst m).map (fun kv => liItem kv.1 kv.2)

/-- Lines 175–184: the 200 response rendering the page for the given
params and model-registry maps. -/
def renderResponse (params registry : ParamsMap) : Response :=
  { status := 200,
    headers := baseHeaders ++ [("Content-Type", "text/html; charset=utf-8")],
    body := .page (liItems params) (liItems registry) }

/-! ## The handler -/

/-- Lines 103–134 and 175–184: the upstream call and everything after
it, given the fully extracted params map. -/
def upstreamPhase (params : ParamsMap) (u : Upstream) : Outcome :=
  match u with
  | .netError => .response (httpError "Error calling model registry service" 500)
  | .reply status bodyRead =>
    if status ≠ 200 then
      .response (httpError "Model registry service error" status)
    else
      match bodyRead with
      | .error _ =>
        .response (httpError "Error reading model registry response" 500)
      | .ok body =>
        match unmarshalMap body with
        | .err =>
          .response (httpError "Invalid JSON from model registry service" 400)
        | .okNull => .response (renderResponse params [])
        | .okMap fields => .response (renderResponse params fields)

/-- The function `handleRequest` of `main.go` (lines 17–185), as a function of the
request data and the upstream result.  Writing the cookie entry into a
`nil` params map (lines 77 and 84 reached with `params == nil`) is a
runtime panic. -/
def handleRequest (r : Request) (u : Upstream) : Outcome :=
  if r.method ≠ "GET" ∧ r.method ≠ "POST" then
    .response (httpError "Method not allowed" 405)
  else
    match bodyPhase r with
    | .error resp => .response resp
    | .ok params0 =>
      match r.cookieResult with
      | .err => .response (httpError "Error reading cookies" 400)
      | c =>
        match params0 with
        | none => .panic
        | some m => upstreamPhase (headerParams r (cookieParams c m)) u

/-- The response carries the two frame-embedding headers of lines
32–33. -/
def hasFrameHeaders (resp : Response) : Prop :=
  ("X-Frame-Options", "ALLOWALL") ∈ resp.headers ∧
  ("Content-Security-Policy", "frame-ancestors *;") ∈ resp.headers

/-- The `interface{}` value the cookie-extraction step stores under
`"oauth2_proxy_kubeflow"`: the cookie's value, or `nil` when the cookie
is absent. -/
def cookieJson : CookieResult → Json
  | .found v => .str v
  | _ => .null

/-! ## Map lemmas -/

theorem mapGet_mapSet_self (m : ParamsMap) (k : String) (v : Json) :
    mapGet (mapSet m k v) k = some v := by
  induction m with
  | nil => simp [mapSet, mapGet]
  | cons kv rest ih =>
    obtain ⟨k', v'⟩ := kv
    by_cases h : k' = k <;> simp [mapSet, mapGet, h, ih]

theorem mapGet_mapSet_ne (m : ParamsMap) (k k' : String) (v : Json)
    (h : k ≠ k') : mapGet (mapSet m k v) k' = mapGet m k' := by
  induction m with
  | nil => simp [mapSet, mapGet, h]
  | cons kv rest ih =>
    obtain ⟨k₀, v₀⟩ := kv
    by_cases h₀ : k₀ = k
    · subst h₀; simp [mapSet, mapGet, h]
    · simp [mapSet, mapGet, h₀, ih]

theorem mem_insortBy {α : Type} (key : α → String) (x y : α) (xs : List α) :
    y ∈ insortBy key x xs ↔ y = x ∨ y ∈ xs := by
  induction xs with
  | nil => simp [insortBy]
  | cons z zs ih =>
    by_cases h : strLe (key x) (key z)
    · simp [insortBy, h]
    · simp [insortBy, h, ih]
      tauto

theorem mem_sortByKey {α : Type} (key : α → String) (x : α) (xs : List α) :
    x ∈ sortByKey key xs ↔ x ∈ xs := by
  induction xs with
  | nil => simp [sortByKey]
  | cons z zs ih =>
    simp [sortByKey, List.foldr] at ih ⊢
    rw [mem_insortBy, ih]

theorem length_insortBy {α : Type} (key : α → String) (x : α) (xs : List α) :
    (insortBy key x xs).length = xs.length + 1 := by
  induction xs with
  | nil => simp [insortBy]
  | cons z zs ih =>
    by_cases h : strLe (key x) (key z) <;> simp [insortBy, h, ih]

theorem length_sortByKey {α : Type} (key : α → String) (xs : List α) :
    (sortByKey key xs).length = xs.length := by
  induction xs with
  | nil => simp [sortByKey]
  | cons z zs ih =>
    simp [sortByKey, List.foldr] at ih ⊢
    rw [length_insortBy, ih]

theorem length_liItems (m : ParamsMap) : (liItems m).length = m.length := by
  simp [liItems, length_sortByKey]

theorem liItem_mem_liItems (m : ParamsMap) (k : String) (v : Json)
    (h : (k, v) ∈ m) : liItem k v ∈ liItems m := by
  simp only [liItems, List.mem_map]
  exact ⟨(k, v), (mem_sortByKey _ _ _).mpr h, rfl⟩

/-! ## Response-shape lemmas -/

theorem hasFrameHeaders_httpError (msg : String) (code : Nat) :
    hasFrameHeaders (httpError msg code) := by
  simp [hasFrameHeaders, httpError, baseHeaders]

theorem hasFrameHeaders_renderResponse (p reg : ParamsMap) :
    hasFrameHeaders (renderResponse p reg) := by
  simp [hasFrameHeaders, renderResponse, baseHeaders]

theorem hasFrameHeaders_of_bodyPhase (r : Request) (resp : Response)
    (h : bodyPhase r = .error resp) : hasFrameHeaders resp := by
  unfold bodyPhase at h
  repeat' split at h
  all_goals first
    | (cases h; exact hasFrameHeaders_httpError _ _)
    | cases h

theorem hasFrameHeaders_of_upstreamPhase (params : ParamsMap) (u : Upstream)
    (resp : Response) (h : upstreamPhase params u = .response resp) :
    hasFrameHeaders resp := by
  unfold upstreamPhase at h
  repeat' split at h
  all_goals cases h
  all_goals first
    | exact hasFrameHeaders_httpError _ _
    | exact hasFrameHeaders_renderResponse _ _

/-! ## Pipeline lemmas -/

/-- When the method is GET or POST, the body phase produced a non-`nil`
map and the cookie lookup did not error, `handleRequest` reduces to the
upstream phase over the fully extracted params. -/
theorem handleRequest_reach (r : Request) (u : Upstream) (m : ParamsMap)
    (hm : r.method = "GET" ∨ r.method = "POST")
    (hb : bodyPhase r = .ok (some m))
    (hc : r.cookieResult ≠ .err) :
    handleRequest r u =
      upstreamPhase (headerParams r (cookieParams r.cookieResult m)) u := by
  unfold handleRequest
  rw [if_neg (by rcases hm with h | h <;> simp [h]), hb]
  cases hcr : r.cookieResult with
  | err => exact absurd hcr hc
  | noCookie => rfl
  | found v => rfl

/-- Folding further form entries whose keys avoid `k` leaves the entry
at `k` unchanged. -/
theorem formFold_get_of_notMem (form : List (String × List String))
    (acc : ParamsMap) (k : String) (h : k ∉ form.map Prod.fst) :
    mapGet (form.foldl (fun a kv => mapSet a kv.1 (formValue kv.2)) acc) k =
      mapGet acc k := by
  induction form generalizing acc with
  | nil => rfl
  | cons kv rest ih =>
    simp only [List.map_cons, List.mem_cons, not_or] at h
    rw [List.foldl_cons, ih _ h.2, mapGet_mapSet_ne _ _ _ _ (fun he => h.1 he.symm)]

/-- Each form entry ends up in the fold's result under its key (keys of
`url.Values` are unique). -/
theorem formFold_get (form : List (String × List String)) (acc : ParamsMap)
    (k : String) (vs : List String)
    (hnd : (form.map Prod.fst).Nodup) (hmem : (k, vs) ∈ form) :
    mapGet (form.foldl (fun a kv => mapSet a kv.1 (formValue kv.2)) acc) k =
      some (formValue vs) := by
  induction form generalizing acc with
  | nil => cases hmem
  | cons kv rest ih =>
    rw [List.map_cons, List.nodup_cons] at hnd
    obtain ⟨hk, hnd'⟩ := hnd
    rw [List.foldl_cons]
    rcases List.mem_cons.mp hmem with heq | hmem'
    · subst heq
      rw [formFold_get_of_notMem rest _ k hk]
      exact mapGet_mapSet_self _ _ _
    · exact ih _ hnd' hmem'

/-- The cookie step does not touch keys other than
`"oauth2_proxy_kubeflow"`. -/
theorem mapGet_cookieParams_ne (c : CookieResult) (m : ParamsMap)
    (k : String) (h : k ≠ "oauth2_proxy_kubeflow") :
    mapGet (cookieParams c m) k = mapGet m k := by
  cases c <;> simp [cookieParams, mapGet_mapSet_ne _ _ _ _ (Ne.symm h)]

/-- The cookie step stores the cookie-derived value (when the lookup did
not error). -/
theorem mapGet_cookieParams_self (c : CookieResult) (m : ParamsMap)
    (hc : c ≠ .err) :
    mapGet (cookieParams c m) "oauth2_proxy_kubeflow" = some (cookieJson c) := by
  cases c with
  | err => exact absurd rfl hc
  | noCookie => exact mapGet_mapSet_self _ _ _
  | found v => exact mapGet_mapSet_self _ _ _

/-! ## Claims -/

/-- C9: for every request whose method is neither GET nor POST,
`handleRequest` responds with status exactly 405 ("Method not allowed",
via `http.Error`) and performs no param extraction, no upstream call
and no rendering: the outcome is the bare 405 error response and does
not depend on the upstream at all. -/
theorem C9_method_not_allowed (r : Request) (u : Upstream)
    (h1 : r.method ≠ "GET") (h2 : r.method ≠ "POST") :
    handleRequest r u = .response (httpError "Method not allowed" 405) ∧
    (httpError "Method not allowed" 405).status = 405 ∧
    ∀ u' : Upstream, handleRequest r u' = handleRequest r u := by
  have key : ∀ u'' : Upstream,
      handleRequest r u'' = .response (httpError "Method not allowed" 405) := by
    intro u''
    unfold handleRequest
    rw [if_pos ⟨h1, h2⟩]
  exact ⟨key u, rfl, fun u' => (key u').trans (key u).symm⟩

/-- Witness for C9 at method `DELETE`. -/
theorem C9_witness :
    handleRequest ⟨"DELETE", .ok "", [], .noCookie, "", ""⟩ .netError =
      .response (httpError "Method not allowed" 405) :=
  (C9_method_not_allowed ⟨"DELETE", .ok "", [], .noCookie, "", ""⟩ .netError
    (by decide) (by decide)).1

/-- C10: every HTTP response the handler writes — any method, any
success or error path — carries both `X-Frame-Options: ALLOWALL` and
`Content-Security-Policy: frame-ancestors *;` (they are set before any
branch and never removed). -/
theorem C10_frame_headers (r : Request) (u : Upstream) (resp : Response)
    (h : handleRequest r u = .response resp) : hasFrameHeaders resp := by
  unfold handleRequest at h
  split at h
  · cases h; exact hasFrameHeaders_httpError _ _
  · split at h
    · next heq =>
        cases h; exact hasFrameHeaders_of_bodyPhase r _ heq
    · split at h
      · cases h; exact hasFrameHeaders_httpError _ _
      · split at h
        · exact Outcome.noConfusion h
        · exact hasFrameHeaders_of_upstreamPhase _ _ _ h

/-- Witness for C10 on a concrete 405 response. -/
theorem C10_witness :
    hasFrameHeaders (httpError "Method not allowed" 405) :=
  C10_frame_headers ⟨"PUT", .ok "", [], .noCookie, "", ""⟩ .netError
    (httpError "Method not allowed" 405) rfl

/-- C3 is false of the code: a POST whose body is the JSON literal
`null` is accepted by `json.Unmarshal` (which leaves `params` as the
`nil` map), and the subsequent cookie insertion
`params["oauth2_proxy_kubeflow"] = …` is an assignment into a `nil`
map — a runtime panic, so no HTTP response is produced. -/
theorem C3_nil_map_panic :
    unmarshalMap "null" = .okNull ∧
    bodyPhase ⟨"POST", .ok "null", [], .noCookie, "", ""⟩ = .ok none ∧
    handleRequest ⟨"POST", .ok "null", [], .noCookie, "", ""⟩
      (.reply 200 (.ok "\x7b\x7d")) = .panic :=
  ⟨rfl, rfl, rfl⟩

/-- C1 counterexample: the POST body `"null"` is non-empty and is not a
valid JSON object (it parses as the JSON literal `null`), yet the
handler does not answer 400 "Invalid JSON in request body" — it panics
on the nil params map, producing no response at all. -/
theorem C1_counterexample :
    parseJson "null" = some Json.null ∧
    handleRequest ⟨"POST", .ok "null", [("q", ["1"])], .noCookie, "", ""⟩
      (.reply 200 (.ok "\x7b\x7d")) = .panic ∧
    ∀ resp : Response,
      handleRequest ⟨"POST", .ok "null", [("q", ["1"])], .noCookie, "", ""⟩
        (.reply 200 (.ok "\x7b\x7d")) ≠ .response resp :=
  ⟨rfl, rfl, fun _ h => Outcome.noConfusion h⟩

/-- C1 (amended): for every POST request whose body read succeeds and
whose non-empty body fails `json.Unmarshal` into a string-keyed map
(any invalid JSON, and any valid JSON whose top-level value is neither
an object nor the literal `null`), `handleRequest` responds 400 with
body "Invalid JSON in request body" and performs no upstream call (the
outcome does not depend on the upstream). -/
theorem C1_invalid_body_400 (r : Request) (u : Upstream) (body : String)
    (hm : r.method = "POST") (hb : r.bodyRead = .ok body)
    (hne : body.length > 0) (hj : unmarshalMap body = .err) :
    handleRequest r u =
      .response (httpError "Invalid JSON in request body" 400) ∧
    ∀ u' : Upstream, handleRequest r u' = handleRequest r u := by
  have hbp : bodyPhase r =
      .error (httpError "Invalid JSON in request body" 400) := by
    unfold bodyPhase
    rw [if_pos hm, hb]
    simp only [hne, if_true, hj]
  have key : ∀ u'' : Upstream, handleRequest r u'' =
      .response (httpError "Invalid JSON in request body" 400) := by
    intro u''
    unfold handleRequest
    rw [if_neg (by simp [hm]), hbp]
  exact ⟨key u, fun u' => (key u').trans (key u).symm⟩

/-- Witness for C1 (amended) at body `"\x7b"` (a lone opening brace). -/
theorem C1_witness :
    unmarshalMap "\x7b" = .err ∧
    handleRequest ⟨"POST", .ok "\x7b", [], .noCookie, "", ""⟩ .netError =
      .response (httpError "Invalid JSON in request body" 400) :=
  ⟨rfl, (C1_invalid_body_400 ⟨"POST", .ok "\x7b", [], .noCookie, "", ""⟩
    .netError "\x7b" rfl rfl (by decide) rfl).1⟩

/-- C2 counterexample: an upstream 200 reply whose body is the JSON
literal `"null"` — valid JSON, but not a JSON object — is accepted:
`json.Unmarshal` succeeds leaving the registry map `nil`, and the
handler renders a 200 page with an empty Model Registry section
instead of answering 400 "Invalid JSON from model registry service". -/
theorem C2_counterexample :
    parseJson "null" = some Json.null ∧
    handleRequest ⟨"GET", .ok "", [], .noCookie, "", ""⟩
        (.reply 200 (.ok "null")) =
      .response (renderResponse (cookieParams .noCookie []) []) ∧
    (renderResponse (cookieParams .noCookie []) []).status = 200 ∧
    (renderResponse (cookieParams .noCookie []) []).status ≠ 400 :=
  ⟨rfl, rfl, rfl, by decide⟩

/-- C2 (amended): for every request that reaches the upstream call,
when the upstream returns status 200 with a body that fails
`json.Unmarshal` into a string-keyed map (any invalid JSON, and any
valid JSON whose top-level value is neither an object nor the literal
`null`), `handleRequest` responds 400 with body "Invalid JSON from
model registry service". -/
theorem C2_upstream_invalid_json_400 (r : Request) (u : Upstream)
    (m : ParamsMap) (b : String)
    (hm : r.method = "GET" ∨ r.method = "POST")
    (hb : bodyPhase r = .ok (some m))
    (hc : r.cookieResult ≠ .err)
    (hu : u = .reply 200 (.ok b))
    (hj : unmarshalMap b = .err) :
    handleRequest r u =
      .response (httpError "Invalid JSON from model registry service" 400) := by
  rw [handleRequest_reach r u m hm hb hc, hu]
  simp [upstreamPhase, hj]

/-- Witness for C2 (amended) at upstream body `"not json"`. -/
theorem C2_witness :
    unmarshalMap "not json" = .err ∧
    handleRequest ⟨"GET", .ok "", [], .noCookie, "", ""⟩
        (.reply 200 (.ok "not json")) =
      .response (httpError "Invalid JSON from model registry service" 400) :=
  ⟨rfl, C2_upstream_invalid_json_400 ⟨"GET", .ok "", [], .noCookie, "", ""⟩
    (.reply 200 (.ok "not json")) [] "not json"
    (Or.inl rfl) rfl (by decide) rfl rfl⟩

/-- The header step stores `"kubeflow-userid"` exactly when that header
is non-empty. -/
theorem mapGet_headerParams_userid (r : Request) (m : ParamsMap) :
    mapGet (headerParams r m) "kubeflow-userid" =
      (if r.userIdHeader = "" then mapGet m "kubeflow-userid"
       else some (.str r.userIdHeader)) := by
  unfold headerParams
  by_cases hu : r.userIdHeader = "" <;> by_cases ht : r.tokenHeader = "" <;>
    simp [hu, ht, mapGet_mapSet_self,
      mapGet_mapSet_ne _ _ _ _
        (by decide : ("x-forwarded-access-token" : String) ≠ "kubeflow-userid")]

/-- The header step stores `"x-forwarded-access-token"` exactly when
that header is non-empty. -/
theorem mapGet_headerParams_token (r : Request) (m : ParamsMap) :
    mapGet (headerParams r m) "x-forwarded-access-token" =
      (if r.tokenHeader = "" then mapGet m "x-forwarded-access-token"
       else some (.str r.tokenHeader)) := by
  unfold headerParams
  by_cases hu : r.userIdHeader = "" <;> by_cases ht : r.tokenHeader = "" <;>
    simp [hu, ht, mapGet_mapSet_self,
      mapGet_mapSet_ne _ _ _ _
        (by decide : ("kubeflow-userid" : String) ≠ "x-forwarded-access-token")]

/-- The header step does not touch other keys. -/
theorem mapGet_headerParams_other (r : Request) (m : ParamsMap) (k : String)
    (h1 : k ≠ "kubeflow-userid") (h2 : k ≠ "x-forwarded-access-token") :
    mapGet (headerParams r m) k = mapGet m k := by
  unfold headerParams
  by_cases hu : r.userIdHeader = "" <;> by_cases ht : r.tokenHeader = "" <;>
    simp [hu, ht, mapGet_mapSet_ne _ _ _ _ (Ne.symm h1),
      mapGet_mapSet_ne _ _ _ _ (Ne.symm h2)]

/-- C4: when the upstream call completes with a status other than 200,
the handler relays exactly that status to the client with the message
"Model registry service error" (`http.Error` appends a newline). -/
theorem C4_upstream_status_relayed (r : Request) (m : ParamsMap)
    (st : Nat) (br : Except Unit String)
    (hm : r.method = "GET" ∨ r.method = "POST")
    (hb : bodyPhase r = .ok (some m))
    (hc : r.cookieResult ≠ .err)
    (hst : st ≠ 200) :
    handleRequest r (.reply st br) =
      .response (httpError "Model registry service error" st) ∧
    (httpError "Model registry service error" st).status = st := by
  refine ⟨?_, rfl⟩
  rw [handleRequest_reach r _ m hm hb hc]
  simp [upstreamPhase, hst]

/-- Witness for C4 at upstream status 503. -/
theorem C4_witness :
    handleRequest ⟨"GET", .ok "", [], .noCookie, "", ""⟩
        (.reply 503 (.ok "x")) =
      .response (httpError "Model registry service error" 503) ∧
    (httpError "Model registry service error" 503).status = 503 :=
  C4_upstream_status_relayed ⟨"GET", .ok "", [], .noCookie, "", ""⟩ []
    503 (.ok "x") (Or.inl rfl) rfl (by decide) (by decide)

/-- C5: on a GET request the params map is built from the parsed form:
a key supplied with exactly one value maps to that string, a key with
more than one value maps to the full ordered list; in particular for
the query string `a=1&a=2&b=3`, `a` maps to the list `["1","2"]` and
`b` to the string `"3"`. -/
theorem C5_get_form_params (r : Request)
    (hm : r.method = "GET")
    (hnd : (r.form.map Prod.fst).Nodup) :
    bodyPhase r = .ok (some (formParams r.form)) ∧
    (∀ k v, (k, [v]) ∈ r.form →
      mapGet (formParams r.form) k = some (.str v)) ∧
    (∀ k vs, 2 ≤ vs.length → (k, vs) ∈ r.form →
      mapGet (formParams r.form) k = some (.arr (vs.map .str))) ∧
    mapGet (formParams [("a", ["1", "2"]), ("b", ["3"])]) "a" =
      some (.arr [.str "1", .str "2"]) ∧
    mapGet (formParams [("a", ["1", "2"]), ("b", ["3"])]) "b" =
      some (.str "3") := by
  refine ⟨?_, ?_, ?_, rfl, rfl⟩
  · unfold bodyPhase
    rw [if_neg (by simp [hm])]
  · intro k v hmem
    simpa [formParams, formValue] using formFold_get r.form [] k [v] hnd hmem
  · intro k vs hlen hmem
    have hne : vs.length ≠ 1 := by omega
    simpa [formParams, formValue, hne] using formFold_get r.form [] k vs hnd hmem

/-- Witness for C5 at the form of the query string `a=1&a=2&b=3`. -/
theorem C5_witness :
    bodyPhase ⟨"GET", .ok "", [("a", ["1", "2"]), ("b", ["3"])], .noCookie,
        "", ""⟩ =
      .ok (some (formParams [("a", ["1", "2"]), ("b", ["3"])])) ∧
    mapGet (formParams [("a", ["1", "2"]), ("b", ["3"])]) "a" =
      some (.arr [.str "1", .str "2"]) ∧
    mapGet (formParams [("a", ["1", "2"]), ("b", ["3"])]) "b" =
      some (.str "3") :=
  have h := C5_get_form_params
    ⟨"GET", .ok "", [("a", ["1", "2"]), ("b", ["3"])], .noCookie, "", ""⟩
    rfl (by decide)
  ⟨h.1, h.2.2.2.1, h.2.2.2.2⟩

/-- C6: after cookie extraction the key `oauth2_proxy_kubeflow` is
always present in params: mapped to the cookie's value when the cookie
is present and to `nil` (not omitted) when it is absent. -/
theorem C6_cookie_key_always_present (r : Request) (m : ParamsMap)
    (hm : r.method = "GET" ∨ r.method = "POST")
    (hb : bodyPhase r = .ok (some m))
    (hc : r.cookieResult ≠ .err) :
    mapGet (cookieParams r.cookieResult m) "oauth2_proxy_kubeflow" =
      some (cookieJson r.cookieResult) ∧
    (∀ v, r.cookieResult = .found v → cookieJson r.cookieResult = .str v) ∧
    (r.cookieResult = .noCookie → cookieJson r.cookieResult = .null) :=
  ⟨mapGet_cookieParams_self _ _ hc,
   fun v hv => by rw [hv]; rfl,
   fun hv => by rw [hv]; rfl⟩

/-- Witness for C6 with the cookie absent. -/
theorem C6_witness :
    mapGet (cookieParams CookieResult.noCookie []) "oauth2_proxy_kubeflow" =
      some (cookieJson CookieResult.noCookie) ∧
    (∀ v, CookieResult.noCookie = CookieResult.found v →
      cookieJson CookieResult.noCookie = .str v) ∧
    (CookieResult.noCookie = CookieResult.noCookie →
      cookieJson CookieResult.noCookie = .null) :=
  C6_cookie_key_always_present ⟨"GET", .ok "", [], .noCookie, "", ""⟩ []
    (Or.inl rfl) rfl (by decide)

/-- C7: the extraction steps overwrite any client-supplied entries for
the three special keys: `oauth2_proxy_kubeflow` is always replaced by
the cookie-derived value (value or `nil`), and each of the two header
keys is replaced by the header's value exactly when that header is
non-empty — a pre-existing value for a header key survives only when
the header is absent or empty. -/
theorem C7_extraction_overwrites (r : Request) (m : ParamsMap)
    (hc : r.cookieResult ≠ .err) :
    mapGet (headerParams r (cookieParams r.cookieResult m))
        "oauth2_proxy_kubeflow" = some (cookieJson r.cookieResult) ∧
    mapGet (headerParams r (cookieParams r.cookieResult m))
        "kubeflow-userid" =
      (if r.userIdHeader = "" then mapGet m "kubeflow-userid"
       else some (.str r.userIdHeader)) ∧
    mapGet (headerParams r (cookieParams r.cookieResult m))
        "x-forwarded-access-token" =
      (if r.tokenHeader = "" then mapGet m "x-forwarded-access-token"
       else some (.str r.tokenHeader)) := by
  refine ⟨?_, ?_, ?_⟩
  · rw [mapGet_headerParams_other _ _ _ (by decide) (by decide)]
    exact mapGet_cookieParams_self _ _ hc
  · rw [mapGet_headerParams_userid,
      mapGet_cookieParams_ne _ _ _ (by decide)]
  · rw [mapGet_headerParams_token,
      mapGet_cookieParams_ne _ _ _ (by decide)]

/-- Witness for C7: a params map that already binds all three special
keys, a present cookie, a non-empty userid header and an empty token
header. -/
theorem C7_witness :
    mapGet (headerParams ⟨"GET", .ok "", [], .found "ck", "alice", ""⟩
        (cookieParams (CookieResult.found "ck")
          [("oauth2_proxy_kubeflow", .str "spoof1"),
           ("kubeflow-userid", .str "spoof2"),
           ("x-forwarded-access-token", .str "spoof3")]))
        "oauth2_proxy_kubeflow" = some (cookieJson (CookieResult.found "ck")) ∧
    mapGet (headerParams ⟨"GET", .ok "", [], .found "ck", "alice", ""⟩
        (cookieParams (CookieResult.found "ck")
          [("oauth2_proxy_kubeflow", .str "spoof1"),
           ("kubeflow-userid", .str "spoof2"),
           ("x-forwarded-access-token", .str "spoof3")]))
        "kubeflow-userid" =
      (if ("alice" : String) = "" then
        mapGet [("oauth2_proxy_kubeflow", .str "spoof1"),
                ("kubeflow-userid", .str "spoof2"),
                ("x-forwarded-access-token", .str "spoof3")] "kubeflow-userid"
       else some (.str "alice")) ∧
    mapGet (headerParams ⟨"GET", .ok "", [], .found "ck", "alice", ""⟩
        (cookieParams (CookieResult.found "ck")
          [("oauth2_proxy_kubeflow", .str "spoof1"),
           ("kubeflow-userid", .str "spoof2"),
           ("x-forwarded-access-token", .str "spoof3")]))
        "x-forwarded-access-token" =
      (if ("" : String) = "" then
        mapGet [("oauth2_proxy_kubeflow", .str "spoof1"),
                ("kubeflow-userid", .str "spoof2"),
                ("x-forwarded-access-token", .str "spoof3")]
          "x-forwarded-access-token"
       else some (.str "")) :=
  C7_extraction_overwrites ⟨"GET", .ok "", [], .found "ck", "alice", ""⟩
    [("oauth2_proxy_kubeflow", .str "spoof1"),
     ("kubeflow-userid", .str "spoof2"),
     ("x-forwarded-access-token", .str "spoof3")] (by decide)

/-- C8: on the success path — GET or POST with valid input, upstream
200 with a JSON-object body — the handler responds 200 with
`Content-Type: text/html; charset=utf-8` and the rendered page holds
exactly one `<li>` per params key and one per model-registry key, each
rendering the (escaped) key and its `%v`-formatted value. -/
theorem C8_success_render (r : Request) (u : Upstream) (m reg : ParamsMap)
    (b : String)
    (hm : r.method = "GET" ∨ r.method = "POST")
    (hb : bodyPhase r = .ok (some m))
    (hc : r.cookieResult ≠ .err)
    (hu : u = .reply 200 (.ok b))
    (hj : unmarshalMap b = .okMap reg) :
    handleRequest r u =
      .response (renderResponse
        (headerParams r (cookieParams r.cookieResult m)) reg) ∧
    (renderResponse (headerParams r (cookieParams r.cookieResult m))
      reg).status = 200 ∧
    ("Content-Type", "text/html; charset=utf-8") ∈
      (renderResponse (headerParams r (cookieParams r.cookieResult m))
        reg).headers ∧
    (liItems (headerParams r (cookieParams r.cookieResult m))).length =
      (mapKeys (headerParams r (cookieParams r.cookieResult m))).length ∧
    (liItems reg).length = (mapKeys reg).length ∧
    (∀ k v, (k, v) ∈ headerParams r (cookieParams r.cookieResult m) →
      liItem k v ∈ liItems (headerParams r (cookieParams r.cookieResult m))) ∧
    (∀ k v, (k, v) ∈ reg → liItem k v ∈ liItems reg) := by
  refine ⟨?_, rfl, ?_, ?_, ?_, ?_, ?_⟩
  · rw [handleRequest_reach r u m hm hb hc, hu]
    simp [upstreamPhase, hj]
  · simp [renderResponse, baseHeaders]
  · rw [length_liItems]; simp [mapKeys]
  · rw [length_liItems]; simp [mapKeys]
  · exact fun k v h => liItem_mem_liItems _ k v h
  · exact fun k v h => liItem_mem_liItems _ k v h

/-- Witness for C8: a GET with one form field, a present cookie and an
upstream body with one registry entry. -/
theorem C8_witness :
    handleRequest ⟨"GET", .ok "", [("b", ["3"])], .found "ck", "", ""⟩
        (.reply 200 (.ok "\x7b\"model\":\"m1\"\x7d")) =
      .response (renderResponse
        [("b", .str "3"), ("oauth2_proxy_kubeflow", .str "ck")]
        [("model", .str "m1")]) ∧
    (renderResponse [("b", .str "3"), ("oauth2_proxy_kubeflow", .str "ck")]
      [("model", .str "m1")]).status = 200 ∧
    (liItems [("b", .str "3"), ("oauth2_proxy_kubeflow", .str "ck")]).length
      = 2 ∧
    (liItems [("model", .str "m1")]).length = 1 :=
  have h := C8_success_render
    ⟨"GET", .ok "", [("b", ["3"])], .found "ck", "", ""⟩
    (.reply 200 (.ok "\x7b\"model\":\"m1\"\x7d"))
    (formParams [("b", ["3"])]) [("model", .str "m1")]
    "\x7b\"model\":\"m1\"\x7d"
    (Or.inl rfl) rfl (by decide) rfl rfl
  ⟨h.1, rfl, rfl, rfl⟩

end KfDemo
